import Mathlib

/-
  Verification of the guess-the-person game orchestrator: session state
  machine, question-budget accounting, timeout policy and guess/retry
  protocol. The JavaScript implementation (index.js, apiChat.js,
  imageAnalyze.js) is not part of the source tree; every definition below
  is modelled from the specification (sections 3, 4.2, 4.3, 4.4 and 6)
  and the project README, as a faithful shallow embedding.
-/

namespace PersonGuesser

/-- Modelled from the spec: the session phases of section 3 (index.js is
absent from src/). -/
inductive Phase
  | analyzing
  | naming
  | playing
  | guessVerify
  | completed
  | expired
  | cancelled
  deriving DecidableEq

/-- Modelled from the spec: terminal phases are Completed, Expired, Cancelled. -/
def Phase.isTerminal : Phase → Bool
  | .completed => true
  | .expired => true
  | .cancelled => true
  | _ => false

/-- Modelled from the spec: the three possible user answers. -/
inductive Answer
  | yes
  | no
  | unsure
  deriving DecidableEq

/-- Modelled from the spec: a Candidate record with stable id, an optional
display name (assigned during Naming) and an opaque attribute map. -/
structure Candidate where
  id : Nat
  name : Option String
  attributes : List (String × String)
  deriving DecidableEq

/-- Modelled from the spec: the summary assembled on a correct guess pairs
the confirmed candidate id with its opaque attributes. -/
structure Summary where
  candidateId : Nat
  attributes : List (String × String)
  deriving DecidableEq

/-- Modelled from the spec: the Session record of section 3.
`pendingQuestion` holds a question issued but not yet answered, capturing
the moment between issuing a question and recording its answer. -/
structure Session where
  id : Nat
  owner : Nat
  phase : Phase
  candidates : List Candidate
  history : List (String × Answer)
  questionCount : Nat
  maxQuestions : Nat
  pendingQuestion : Option String
  pendingGuess : Option Nat
  summary : Option Summary
  createdAt : Nat
  lastActivityAt : Nat
  wrongGuesses : Nat
  deriving DecidableEq

/-- Modelled from the spec: the recognized configuration options relevant to
the core (section 6). -/
structure Config where
  maxQuestions : Nat
  namingTimeoutSeconds : Nat
  questionTimeoutSeconds : Nat
  guessVerifyTimeoutSeconds : Nat
  deriving DecidableEq

/-- Modelled from the spec: the documented defaults — maxQuestions 20,
naming 60s, question-wait 120s, guess verification 120s. -/
def defaultConfig : Config :=
  { maxQuestions := 20
    namingTimeoutSeconds := 60
    questionTimeoutSeconds := 120
    guessVerifyTimeoutSeconds := 120 }

/-- Modelled from the spec: the error taxonomy of section 7. -/
inductive GameError
  | invalidTransition
  | notFound
  | sessionExpired
  | duplicateActiveSession
  | invalidPhase
  | oracleUnavailable
  | oracleProtocolError
  | noCandidatesDetected
  | analyzerUnavailable
  deriving DecidableEq

/-- Modelled from the spec: the events driving the phase state machine of
section 4.2. -/
inductive Event
  | candidatesReady (cs : List Candidate)
  | namesAssigned
  | oracleQuestion (text : String)
  | oracleGuess (candidateId : Nat)
  | forcedGuess (candidateId : Nat)
  | guessCorrect
  | guessWrong
  | timeoutElapsed
  | cancelRequested
  deriving DecidableEq

/-- Modelled from the spec: the Reasoning Oracle response as a closed sum
type; any shape other than a question or a guess is malformed (section 6). -/
inductive OracleReply
  | question (text : String)
  | guess (candidateId : Nat)
  | malformed
  deriving DecidableEq

/-- Modelled from the spec: per-phase inactivity limits of section 4.3;
phases without a limit (terminals and the transient Analyzing) never expire
by inactivity. -/
def phaseLimit (cfg : Config) : Phase → Option Nat
  | .naming => some cfg.namingTimeoutSeconds
  | .playing => some cfg.questionTimeoutSeconds
  | .guessVerify => some cfg.guessVerifyTimeoutSeconds
  | _ => none

/-- Modelled from the spec: a session is expired when
now − lastActivityAt > limit(phase); a pure predicate (section 4.3). -/
def isExpired (cfg : Config) (s : Session) (now : Nat) : Bool :=
  match phaseLimit cfg s.phase with
  | some l => decide (l < now - s.lastActivityAt)
  | none => false

/-- Modelled from the spec: candidate lookup by id within a session. -/
def findCandidate (cs : List Candidate) (cid : Nat) : Option Candidate :=
  cs.find? (fun c => c.id == cid)

/-- Modelled from the spec: whether the oracle-returned candidate id names a
candidate of this session; an unknown id is a protocol error (section 4.4). -/
def knownCandidate (s : Session) (cid : Nat) : Bool :=
  (findCandidate s.candidates cid).isSome

/-- Modelled from the spec: the summary for a confirmed guess pairs the
pending candidate's id with its opaque attributes (section 4.4). -/
def mkSummary (s : Session) : Option Summary :=
  match s.pendingGuess with
  | some cid =>
      match findCandidate s.candidates cid with
      | some c => some { candidateId := cid, attributes := c.attributes }
      | none => none
  | none => none

/-- Modelled from the spec: the pure phase transition function of section
4.2. Illegal event-for-phase combinations fail with InvalidTransition. A
question may only be issued while the budget remains: the forced guess takes
priority exactly at questionCount == maxQuestions. -/
def step (s : Session) (e : Event) : Except GameError Session :=
  match s.phase, e with
  | .analyzing, .candidatesReady cs =>
      Except.ok { s with phase := .naming, candidates := cs }
  | .naming, .namesAssigned =>
      Except.ok { s with phase := .playing }
  | .playing, .oracleQuestion t =>
      if s.questionCount < s.maxQuestions then
        Except.ok { s with questionCount := s.questionCount + 1,
                           pendingQuestion := some t }
      else Except.error .invalidTransition
  | .playing, .oracleGuess cid =>
      Except.ok { s with phase := .guessVerify, pendingGuess := some cid }
  | .playing, .forcedGuess cid =>
      Except.ok { s with phase := .guessVerify, pendingGuess := some cid }
  | .guessVerify, .guessCorrect =>
      Except.ok { s with phase := .completed, summary := mkSummary s,
                         pendingGuess := none }
  | .guessVerify, .guessWrong =>
      if s.questionCount < s.maxQuestions then
        Except.ok { s with phase := .playing, pendingGuess := none,
                           wrongGuesses := s.wrongGuesses + 1 }
      else
        Except.ok { s with phase := .completed, pendingGuess := none,
                           wrongGuesses := s.wrongGuesses + 1 }
  | p, .timeoutElapsed =>
      if p.isTerminal then Except.error .invalidTransition
      else Except.ok { s with phase := .expired }
  | p, .cancelRequested =>
      if p.isTerminal then Except.error .invalidTransition
      else Except.ok { s with phase := .cancelled }
  | _, _ => Except.error .invalidTransition

/-- Modelled from the spec: every Orchestrator operation first checks the
Timeout Policy — if already expired it forces Expired and fails with
SessionExpired; otherwise it updates lastActivityAt and runs the operation
body; if the body fails, no partial state is committed and in particular
lastActivityAt is left unchanged (sections 4.4 and 7). -/
def runOp (cfg : Config) (s : Session) (now : Nat)
    (body : Session → Except GameError Session) : Session × Option GameError :=
  if isExpired cfg s now then
    ({ s with phase := .expired }, some GameError.sessionExpired)
  else
    match body { s with lastActivityAt := now } with
    | Except.ok s2 => (s2, none)
    | Except.error e => (s, some e)

/-- Modelled from the spec: apply the Oracle's reply to a Playing session —
a question is issued, a guess of a known candidate moves to GuessVerify; an
unavailable oracle or a malformed reply or an unknown candidate id fails
(section 4.4). -/
def applyOracle (s : Session) (r : Option OracleReply) :
    Except GameError Session :=
  match r with
  | none => Except.error .oracleUnavailable
  | some .malformed => Except.error .oracleProtocolError
  | some (.question t) => step s (.oracleQuestion t)
  | some (.guess cid) =>
      if knownCandidate s cid then step s (.oracleGuess cid)
      else Except.error .oracleProtocolError

/-- Modelled from the spec: the forced guess requested when the question
budget is exhausted; the oracle must reply with a guess of a known
candidate, anything else is an error (sections 4.2 and 4.4). -/
def forceGuess (s : Session) (r : Option OracleReply) :
    Except GameError Session :=
  match r with
  | none => Except.error .oracleUnavailable
  | some (.guess cid) =>
      if knownCandidate s cid then step s (.forcedGuess cid)
      else Except.error .oracleProtocolError
  | some _ => Except.error .oracleProtocolError

/-- Modelled from the spec: a fresh session enters Analyzing with an empty
history, a zero question count and the configured ceiling (section 3). -/
def mkSession (sid owner : Nat) (cfg : Config) (now : Nat) : Session :=
  { id := sid
    owner := owner
    phase := .analyzing
    candidates := []
    history := []
    questionCount := 0
    maxQuestions := cfg.maxQuestions
    pendingQuestion := none
    pendingGuess := none
    summary := none
    createdAt := now
    lastActivityAt := now
    wrongGuesses := 0 }

/-- Modelled from the spec: the README documents that the image-analysis
step (imageAnalyze.js, absent from src/) detects and analyzes at most 20
faces in a single image. -/
def maxFaces : Nat := 20

/-- Modelled from the spec: the Vision Analyzer returns the detected faces
as candidates, capped at `maxFaces`. -/
def analyzeImage (faces : List Candidate) : List Candidate :=
  faces.take maxFaces

/-- Modelled from the spec: startSession invokes the Vision Analyzer; it
fails with NoCandidatesDetected when fewer than two candidates are found,
else creates a session that moves through Analyzing into Naming
(section 4.4). `analyzed` is none when the analyzer is unavailable. -/
def startSession (cfg : Config) (owner sid : Nat)
    (analyzed : Option (List Candidate)) (now : Nat) :
    Except GameError Session :=
  match analyzed with
  | none => Except.error .analyzerUnavailable
  | some cs =>
      if cs.length < 2 then Except.error .noCandidatesDetected
      else step (mkSession sid owner cfg now) (.candidatesReady cs)

/-- Modelled from the spec: a valid display name is non-empty and letters
only (section 4.4). -/
def validName (n : String) : Bool :=
  !n.isEmpty && n.all Char.isAlpha

/-- Modelled from the spec: record the assigned name on the matching
candidate. -/
def setName (cs : List Candidate) (cid : Nat) (n : String) : List Candidate :=
  cs.map (fun c => if c.id == cid then { c with name := some n } else c)

/-- Modelled from the spec: whether every candidate has been named. -/
def allNamed (cs : List Candidate) : Bool :=
  cs.all (fun c => c.name.isSome)

/-- Modelled from the spec: the session after recording a candidate's
assigned display name (section 4.4). -/
def withName (s1 : Session) (cid : Nat) (n : String) : Session :=
  { s1 with candidates := setName s1.candidates cid n }

/-- Modelled from the spec: the session after appending an answered
question to the history (section 4.4). -/
def recordAnswer (s1 : Session) (q : String) (ans : Answer) : Session :=
  { s1 with history := s1.history ++ [(q, ans)], pendingQuestion := none }

/-- Modelled from the spec: the body of assignName, run under the lock
after the expiry check — it validates the name and phase; once all
candidates are named it transitions to Playing and immediately requests
the first question from the Reasoning Oracle (section 4.4). -/
def assignNameBody (oracle : Option OracleReply) (cid : Nat) (n : String)
    (s1 : Session) : Except GameError Session :=
  if s1.phase ≠ Phase.naming then Except.error .invalidPhase
  else if ¬ validName n then Except.error .invalidPhase
  else if ¬ knownCandidate s1 cid then Except.error .notFound
  else
    if allNamed (withName s1 cid n).candidates then
      match step (withName s1 cid n) .namesAssigned with
      | Except.ok s3 => applyOracle s3 oracle
      | Except.error e => Except.error e
    else Except.ok (withName s1 cid n)

/-- Modelled from the spec: assignName as an Orchestrator operation. -/
def assignName (cfg : Config) (oracle : Option OracleReply) (s : Session)
    (cid : Nat) (n : String) (now : Nat) : Session × Option GameError :=
  runOp cfg s now (assignNameBody oracle cid n)

/-- Modelled from the spec: the body of submitAnswer, valid only in Playing
while a question awaits an answer; it appends the (question, answer) pair
to the history, then — with the forced guess taking priority exactly when
the budget is exhausted — requests the next step from the Oracle
(sections 4.2 and 4.4). -/
def submitAnswerBody (oracle : Option OracleReply) (ans : Answer)
    (s1 : Session) : Except GameError Session :=
  match s1.phase, s1.pendingQuestion with
  | Phase.playing, some q =>
      if (recordAnswer s1 q ans).questionCount =
          (recordAnswer s1 q ans).maxQuestions then
        forceGuess (recordAnswer s1 q ans) oracle
      else applyOracle (recordAnswer s1 q ans) oracle
  | _, _ => Except.error .invalidTransition

/-- Modelled from the spec: submitAnswer as an Orchestrator operation. -/
def submitAnswer (cfg : Config) (oracle : Option OracleReply) (s : Session)
    (ans : Answer) (now : Nat) : Session × Option GameError :=
  runOp cfg s now (submitAnswerBody oracle ans)

/-- Modelled from the spec: the body of submitGuessVerification, valid only
in GuessVerify; a correct guess completes the game with a summary, a wrong
guess returns to Playing while budget remains or completes unsolved
(section 4.4). -/
def submitGuessVerificationBody (correct : Bool) (s1 : Session) :
    Except GameError Session :=
  if s1.phase = Phase.guessVerify then
    if correct then step s1 .guessCorrect else step s1 .guessWrong
  else Except.error .invalidTransition

/-- Modelled from the spec: submitGuessVerification as an Orchestrator
operation. -/
def submitGuessVerification (cfg : Config) (s : Session) (correct : Bool)
    (now : Nat) : Session × Option GameError :=
  runOp cfg s now (submitGuessVerificationBody correct)

/-- Modelled from the spec: touch on an already-terminal session is a
no-op returning the existing terminal state; otherwise it performs the
expiry check and refreshes lastActivityAt (sections 4.4 and 8). -/
def touch (cfg : Config) (s : Session) (now : Nat) :
    Session × Option GameError :=
  if s.phase.isTerminal then (s, none)
  else runOp cfg s now fun s1 => Except.ok s1

/-- Modelled from the spec: cancel on an already-terminal session is a
no-op; from any non-terminal phase it transitions to Cancelled
(sections 4.4 and 8). -/
def cancel (cfg : Config) (s : Session) (now : Nat) :
    Session × Option GameError :=
  if s.phase.isTerminal then (s, none)
  else runOp cfg s now fun s1 => step s1 .cancelRequested

/-- Modelled from the spec: the Expiry Sweeper force-expires a session
whose timeout has elapsed, re-checking the predicate under the lock
(section 4.5). -/
def sweepExpire (cfg : Config) (s : Session) (now : Nat) : Session :=
  if isExpired cfg s now then { s with phase := Phase.expired } else s

/-- The directed transition graph of section 4.2 as a Boolean edge
relation on phases. -/
def edgeB : Phase → Phase → Bool
  | .analyzing, .naming => true
  | .naming, .playing => true
  | .playing, .playing => true
  | .playing, .guessVerify => true
  | .guessVerify, .completed => true
  | .guessVerify, .playing => true
  | p, .expired => !p.isTerminal
  | p, .cancelled => !p.isTerminal
  | _, _ => false

/-- One Orchestrator- or Sweeper-mediated mutation of a session: the
resulting state of any public operation, regardless of outcome. -/
def OpStep (cfg : Config) (t u : Session) : Prop :=
  (∃ oracle cid n now e, assignName cfg oracle t cid n now = (u, e)) ∨
  (∃ oracle ans now e, submitAnswer cfg oracle t ans now = (u, e)) ∨
  (∃ correct now e, submitGuessVerification cfg t correct now = (u, e)) ∨
  (∃ now e, touch cfg t now = (u, e)) ∨
  (∃ now e, cancel cfg t now = (u, e)) ∨
  (∃ now, sweepExpire cfg t now = u)

/-- Reachability of one session state from another through Orchestrator
and Sweeper operations. -/
inductive Reaches (cfg : Config) : Session → Session → Prop
  | refl (s : Session) : Reaches cfg s s
  | tail {s t u : Session} : Reaches cfg s t → OpStep cfg t u →
      Reaches cfg s u

theorem step_ok_edge (s : Session) (e : Event) (s' : Session)
    (h : step s e = Except.ok s') : edgeB s.phase s'.phase = true := by
  cases hp : s.phase <;> cases e <;>
    simp only [step, hp] at h <;>
    (try split at h) <;>
    first
      | exact Except.noConfusion h
      | (injection h with h; subst h; simp [edgeB, Phase.isTerminal]; done)
      | (rename_i hterm; exact absurd (by decide) hterm)

theorem step_error_invalid (s : Session) (e : Event) (err : GameError)
    (h : step s e = Except.error err) : err = GameError.invalidTransition := by
  cases hp : s.phase <;> cases e <;>
    simp only [step, hp] at h <;>
    (try split at h) <;>
    simp_all

theorem runOp_error_eq (cfg : Config) (s : Session) (now : Nat)
    (body : Session → Except GameError Session) (s' : Session)
    (err : GameError) (h : runOp cfg s now body = (s', some err))
    (hne : err ≠ GameError.sessionExpired) : s' = s := by
  unfold runOp at h
  split at h
  · simp only [Prod.mk.injEq, Option.some.injEq] at h
    exact absurd h.2.symm hne
  · cases hb : body { s with lastActivityAt := now } <;>
      simp only [hb, Prod.mk.injEq] at h
    · exact h.1.symm
    · simp at h

def candA : Candidate := { id := 0, name := some "Ann", attributes := [] }

def candB : Candidate := { id := 1, name := some "Ben", attributes := [] }

def sessionNaming : Session :=
  { id := 1, owner := 7, phase := Phase.naming, candidates := [candA, candB],
    history := [], questionCount := 0, maxQuestions := 3,
    pendingQuestion := none, pendingGuess := none, summary := none,
    createdAt := 0, lastActivityAt := 0, wrongGuesses := 0 }

/-- Claim C1: for every session and every sequence of accepted events, the
phase only changes along the transition edges of section 4.2; an event that
is not legal for the current phase fails with InvalidTransition, and any
failing operation other than a lazy expiry leaves the session unchanged. -/
theorem claim1_transition_table :
    (∀ s e s', step s e = Except.ok s' → edgeB s.phase s'.phase = true) ∧
    (∀ s e err, step s e = Except.error err →
        err = GameError.invalidTransition) ∧
    (∀ cfg s now body s' err, runOp cfg s now body = (s', some err) →
        err ≠ GameError.sessionExpired → s' = s) :=
  ⟨step_ok_edge, step_error_invalid,
    fun cfg s now body s' err h hne => runOp_error_eq cfg s now body s' err h hne⟩

/-- Concrete instantiation of C1: the names-assigned event moves a Naming
session along a listed edge, an illegal event yields InvalidTransition, and
a failed operation body returns the untouched session. -/
theorem claim1_transition_table_witness :
    edgeB sessionNaming.phase Phase.playing = true ∧
    GameError.invalidTransition = GameError.invalidTransition ∧
    sessionNaming = sessionNaming :=
  ⟨claim1_transition_table.1 sessionNaming Event.namesAssigned
      { sessionNaming with phase := Phase.playing } rfl,
   claim1_transition_table.2.1 sessionNaming Event.guessCorrect
      GameError.invalidTransition rfl,
   claim1_transition_table.2.2 defaultConfig sessionNaming 0
      (fun _ => Except.error GameError.invalidTransition) sessionNaming
      GameError.invalidTransition rfl (by decide)⟩

theorem step_preserves_budget (s s' : Session) (e : Event)
    (h : step s e = Except.ok s') (hi : s.questionCount ≤ s.maxQuestions) :
    s'.questionCount ≤ s'.maxQuestions ∧ s'.maxQuestions = s.maxQuestions := by
  cases hp : s.phase <;> cases e <;>
    simp only [step, hp] at h <;>
    (try split at h) <;>
    first
      | exact Except.noConfusion h
      | (injection h with h; subst h; exact ⟨by simp_all; try omega, rfl⟩)

theorem applyOracle_preserves_budget (s s' : Session) (r : Option OracleReply)
    (h : applyOracle s r = Except.ok s')
    (hi : s.questionCount ≤ s.maxQuestions) :
    s'.questionCount ≤ s'.maxQuestions ∧ s'.maxQuestions = s.maxQuestions := by
  cases r with
  | none => exact Except.noConfusion h
  | some rep =>
    cases rep with
    | question t => exact step_preserves_budget s s' _ h hi
    | guess cid =>
        simp only [applyOracle] at h
        split at h
        · exact step_preserves_budget s s' _ h hi
        · exact Except.noConfusion h
    | malformed => exact Except.noConfusion h

theorem forceGuess_preserves_budget (s s' : Session) (r : Option OracleReply)
    (h : forceGuess s r = Except.ok s')
    (hi : s.questionCount ≤ s.maxQuestions) :
    s'.questionCount ≤ s'.maxQuestions ∧ s'.maxQuestions = s.maxQuestions := by
  cases r with
  | none => exact Except.noConfusion h
  | some rep =>
    cases rep with
    | question t => exact Except.noConfusion h
    | guess cid =>
        simp only [forceGuess] at h
        split at h
        · exact step_preserves_budget s s' _ h hi
        · exact Except.noConfusion h
    | malformed => exact Except.noConfusion h

theorem runOp_preserves_budget (cfg : Config) (s : Session) (now : Nat)
    (body : Session → Except GameError Session) (u : Session)
    (e : Option GameError) (h : runOp cfg s now body = (u, e))
    (hi : s.questionCount ≤ s.maxQuestions)
    (hb : ∀ u', body { s with lastActivityAt := now } = Except.ok u' →
        u'.questionCount ≤ u'.maxQuestions ∧ u'.maxQuestions = s.maxQuestions) :
    u.questionCount ≤ u.maxQuestions ∧ u.maxQuestions = s.maxQuestions := by
  unfold runOp at h
  split at h
  · simp only [Prod.mk.injEq] at h
    obtain ⟨h1, _⟩ := h
    subst h1
    exact ⟨hi, rfl⟩
  · cases hbody : body { s with lastActivityAt := now } <;>
      simp only [hbody, Prod.mk.injEq] at h
    · obtain ⟨h1, _⟩ := h
      subst h1
      exact ⟨hi, rfl⟩
    · obtain ⟨h1, _⟩ := h
      subst h1
      exact hb _ hbody

theorem assignName_preserves_budget (cfg : Config)
    (oracle : Option OracleReply) (s : Session) (cid : Nat) (n : String)
    (now : Nat) (u : Session) (e : Option GameError)
    (h : assignName cfg oracle s cid n now = (u, e))
    (hi : s.questionCount ≤ s.maxQuestions) :
    u.questionCount ≤ u.maxQuestions ∧ u.maxQuestions = s.maxQuestions := by
  refine runOp_preserves_budget cfg s now _ u e h hi ?_
  intro u' hb
  unfold assignNameBody at hb
  split at hb
  · exact Except.noConfusion hb
  split at hb
  · exact Except.noConfusion hb
  split at hb
  · exact Except.noConfusion hb
  split at hb
  · cases hs : step (withName { s with lastActivityAt := now } cid n)
        Event.namesAssigned <;> rw [hs] at hb
    · exact Except.noConfusion hb
    · rename_i s3
      have h3 := step_preserves_budget _ s3 _ hs hi
      have h4 := applyOracle_preserves_budget s3 u' oracle hb h3.1
      exact ⟨h4.1, h4.2.trans h3.2⟩
  · injection hb with hb
    subst hb
    exact ⟨hi, rfl⟩

theorem submitAnswer_preserves_budget (cfg : Config)
    (oracle : Option OracleReply) (s : Session) (ans : Answer) (now : Nat)
    (u : Session) (e : Option GameError)
    (h : submitAnswer cfg oracle s ans now = (u, e))
    (hi : s.questionCount ≤ s.maxQuestions) :
    u.questionCount ≤ u.maxQuestions ∧ u.maxQuestions = s.maxQuestions := by
  refine runOp_preserves_budget cfg s now _ u e h hi ?_
  intro u' hb
  unfold submitAnswerBody at hb
  split at hb
  · split at hb
    · have hp := forceGuess_preserves_budget _ u' oracle hb hi
      exact hp
    · have hp := applyOracle_preserves_budget _ u' oracle hb hi
      exact hp
  · exact Except.noConfusion hb

theorem submitGuessVerification_preserves_budget (cfg : Config) (s : Session)
    (correct : Bool) (now : Nat) (u : Session) (e : Option GameError)
    (h : submitGuessVerification cfg s correct now = (u, e))
    (hi : s.questionCount ≤ s.maxQuestions) :
    u.questionCount ≤ u.maxQuestions ∧ u.maxQuestions = s.maxQuestions := by
  refine runOp_preserves_budget cfg s now _ u e h hi ?_
  intro u' hb
  unfold submitGuessVerificationBody at hb
  split at hb
  · split at hb <;>
      · have hp := step_preserves_budget _ u' _ hb hi
        exact hp
  · exact Except.noConfusion hb

theorem touch_preserves_budget (cfg : Config) (s : Session) (now : Nat)
    (u : Session) (e : Option GameError) (h : touch cfg s now = (u, e))
    (hi : s.questionCount ≤ s.maxQuestions) :
    u.questionCount ≤ u.maxQuestions ∧ u.maxQuestions = s.maxQuestions := by
  unfold touch at h
  split at h
  · simp only [Prod.mk.injEq] at h
    obtain ⟨h1, _⟩ := h
    subst h1
    exact ⟨hi, rfl⟩
  · refine runOp_preserves_budget cfg s now _ u e h hi ?_
    intro u' hb
    injection hb with hb
    subst hb
    exact ⟨hi, rfl⟩

theorem cancel_preserves_budget (cfg : Config) (s : Session) (now : Nat)
    (u : Session) (e : Option GameError) (h : cancel cfg s now = (u, e))
    (hi : s.questionCount ≤ s.maxQuestions) :
    u.questionCount ≤ u.maxQuestions ∧ u.maxQuestions = s.maxQuestions := by
  unfold cancel at h
  split at h
  · simp only [Prod.mk.injEq] at h
    obtain ⟨h1, _⟩ := h
    subst h1
    exact ⟨hi, rfl⟩
  · refine runOp_preserves_budget cfg s now _ u e h hi ?_
    intro u' hb
    have hp := step_preserves_budget _ u' _ hb hi
    exact hp

theorem sweepExpire_preserves_budget (cfg : Config) (s : Session) (now : Nat)
    (u : Session) (h : sweepExpire cfg s now = u)
    (hi : s.questionCount ≤ s.maxQuestions) :
    u.questionCount ≤ u.maxQuestions ∧ u.maxQuestions = s.maxQuestions := by
  unfold sweepExpire at h
  split at h <;> subst h <;> exact ⟨hi, rfl⟩

theorem opStep_preserves_budget (cfg : Config) (t u : Session)
    (h : OpStep cfg t u) (hi : t.questionCount ≤ t.maxQuestions) :
    u.questionCount ≤ u.maxQuestions ∧ u.maxQuestions = t.maxQuestions := by
  rcases h with ⟨oracle, cid, n, now, e, h⟩ | ⟨oracle, ans, now, e, h⟩ |
    ⟨c, now, e, h⟩ | ⟨now, e, h⟩ | ⟨now, e, h⟩ | ⟨now, h⟩
  · exact assignName_preserves_budget cfg oracle t cid n now u e h hi
  · exact submitAnswer_preserves_budget cfg oracle t ans now u e h hi
  · exact submitGuessVerification_preserves_budget cfg t c now u e h hi
  · exact touch_preserves_budget cfg t now u e h hi
  · exact cancel_preserves_budget cfg t now u e h hi
  · exact sweepExpire_preserves_budget cfg t now u h hi

theorem reaches_budget (cfg : Config) (s0 s : Session)
    (hr : Reaches cfg s0 s) (hi : s0.questionCount ≤ s0.maxQuestions) :
    s.questionCount ≤ s.maxQuestions ∧ s.maxQuestions = s0.maxQuestions := by
  induction hr with
  | refl => exact ⟨hi, rfl⟩
  | tail hr hstep ih =>
      obtain ⟨h1, h2⟩ := ih
      obtain ⟨h3, h4⟩ := opStep_preserves_budget cfg _ _ hstep h1
      exact ⟨h3, h4.trans h2⟩

theorem startSession_budget (cfg : Config) (owner sid : Nat)
    (analyzed : Option (List Candidate)) (now : Nat) (s0 : Session)
    (h : startSession cfg owner sid analyzed now = Except.ok s0) :
    s0.questionCount = 0 ∧ s0.maxQuestions = cfg.maxQuestions := by
  cases analyzed with
  | none => exact Except.noConfusion h
  | some cs =>
      simp only [startSession] at h
      split at h
      · exact Except.noConfusion h
      · injection h with h
        subst h
        exact ⟨rfl, rfl⟩

/-- Claim C2: for every session, at every point in its lifetime,
0 ≤ questionCount ≤ maxQuestions, where maxQuestions is fixed at session
creation (default 20); the lower bound is inherent in the Nat embedding. -/
theorem claim2_question_budget (cfg : Config) (owner sid : Nat)
    (analyzed : Option (List Candidate)) (now : Nat) (s0 s : Session)
    (h0 : startSession cfg owner sid analyzed now = Except.ok s0)
    (hr : Reaches cfg s0 s) :
    s.questionCount ≤ s.maxQuestions ∧ s.maxQuestions = cfg.maxQuestions ∧
    defaultConfig.maxQuestions = 20 := by
  obtain ⟨hq, hm⟩ := startSession_budget cfg owner sid analyzed now s0 h0
  obtain ⟨h1, h2⟩ := reaches_budget cfg s0 s hr (by omega)
  exact ⟨h1, h2.trans hm, rfl⟩

def sessionStart : Session :=
  { mkSession 1 7 defaultConfig 0 with
    phase := Phase.naming
    candidates := [candA, candB] }

/-- Concrete instantiation of C2 on a freshly started session. -/
theorem claim2_question_budget_witness :
    sessionStart.questionCount ≤ sessionStart.maxQuestions ∧
    sessionStart.maxQuestions = defaultConfig.maxQuestions ∧
    defaultConfig.maxQuestions = 20 :=
  claim2_question_budget defaultConfig 7 1 (some [candA, candB]) 0
    sessionStart sessionStart rfl (Reaches.refl sessionStart)

theorem runOp_eq_cases (cfg : Config) (s : Session) (now : Nat)
    (body : Session → Except GameError Session) (s' : Session)
    (e : Option GameError) (h : runOp cfg s now body = (s', e)) :
    (isExpired cfg s now = true ∧ s' = { s with phase := Phase.expired } ∧
      e = some GameError.sessionExpired) ∨
    (isExpired cfg s now = false ∧
      body { s with lastActivityAt := now } = Except.ok s' ∧ e = none) ∨
    (isExpired cfg s now = false ∧ s' = s ∧
      ∃ err, body { s with lastActivityAt := now } = Except.error err ∧
        e = some err) := by
  unfold runOp at h
  split at h
  · rename_i hx
    simp only [Prod.mk.injEq] at h
    exact Or.inl ⟨hx, h.1.symm, h.2.symm⟩
  · rename_i hx
    have hx2 : isExpired cfg s now = false := Bool.not_eq_true _ ▸ hx
    cases hb : body { s with lastActivityAt := now } <;>
      simp only [hb, Prod.mk.injEq] at h
    · obtain ⟨h1, h2⟩ := h
      exact Or.inr (Or.inr ⟨hx2, h1.symm, _, rfl, h2.symm⟩)
    · obtain ⟨h1, h2⟩ := h
      subst h1
      exact Or.inr (Or.inl ⟨hx2, rfl, h2.symm⟩)

theorem submitAnswerBody_forced (oracle : Option OracleReply) (ans : Answer)
    (s1 : Session) (q : String) (hp : s1.phase = Phase.playing)
    (hq : s1.pendingQuestion = some q)
    (hc : s1.questionCount = s1.maxQuestions) :
    submitAnswerBody oracle ans s1 =
      forceGuess (recordAnswer s1 q ans) oracle := by
  obtain ⟨i, o, ph, cs, hist, qc, mq, pq, pg, sm, ca, la, wg⟩ := s1
  simp only at hp hq hc
  subst hp
  subst hq
  simp only [submitAnswerBody]
  split
  · rfl
  · rename_i hcond
    exact absurd hc hcond

theorem submitAnswerBody_next (oracle : Option OracleReply) (ans : Answer)
    (s1 : Session) (q : String) (hp : s1.phase = Phase.playing)
    (hq : s1.pendingQuestion = some q)
    (hc : s1.questionCount ≠ s1.maxQuestions) :
    submitAnswerBody oracle ans s1 =
      applyOracle (recordAnswer s1 q ans) oracle := by
  obtain ⟨i, o, ph, cs, hist, qc, mq, pq, pg, sm, ca, la, wg⟩ := s1
  simp only at hp hq hc
  subst hp
  subst hq
  simp only [submitAnswerBody]
  split
  · rename_i hcond
    exact absurd hcond hc
  · rfl

theorem step_forcedGuess (s : Session) (cid : Nat)
    (hp : s.phase = Phase.playing) :
    step s (Event.forcedGuess cid) = Except.ok
      { s with phase := Phase.guessVerify, pendingGuess := some cid } := by
  obtain ⟨i, o, ph, cs, hist, qc, mq, pq, pg, sm, ca, la, wg⟩ := s
  simp only at hp
  subst hp
  rfl

/-- Claim C3: in Playing with questionCount == maxQuestions and an answer
pending, submitAnswer takes the forced-guess transition to GuessVerify and
never issues a further question: the question count never increases and on
success the phase is GuessVerify with no new pending question. -/
theorem claim3_forced_guess (cfg : Config) (oracle : Option OracleReply)
    (s : Session) (ans : Answer) (now : Nat) (q : String) (s' : Session)
    (e : Option GameError)
    (hp : s.phase = Phase.playing) (hq : s.pendingQuestion = some q)
    (hc : s.questionCount = s.maxQuestions)
    (h : submitAnswer cfg oracle s ans now = (s', e)) :
    s'.questionCount = s.questionCount ∧
    (e = none → s'.phase = Phase.guessVerify ∧ s'.pendingQuestion = none) := by
  rcases runOp_eq_cases cfg s now _ s' e h with
    ⟨hx, h1, h2⟩ | ⟨hx, hb, h2⟩ | ⟨hx, h1, err, hb, h2⟩
  · subst h1; subst h2
    exact ⟨rfl, fun he => Option.noConfusion he⟩
  · rw [submitAnswerBody_forced oracle ans { s with lastActivityAt := now } q hp hq hc] at hb
    cases oracle with
    | none => exact Except.noConfusion hb
    | some rep =>
      cases rep with
      | question t => exact Except.noConfusion hb
      | malformed => exact Except.noConfusion hb
      | guess cid =>
          simp only [forceGuess] at hb
          split at hb
          · rw [step_forcedGuess
                (recordAnswer { s with lastActivityAt := now } q ans) cid hp]
                at hb
            injection hb with hb
            subst hb
            exact ⟨rfl, fun _ => ⟨rfl, rfl⟩⟩
          · exact Except.noConfusion hb
  · subst h1; subst h2
    exact ⟨rfl, fun he => Option.noConfusion he⟩

def sessionAtBudget : Session :=
  { id := 1, owner := 7, phase := Phase.playing, candidates := [candA, candB],
    history := [("q one", Answer.no), ("q two", Answer.no)],
    questionCount := 3, maxQuestions := 3, pendingQuestion := some "q three",
    pendingGuess := none, summary := none, createdAt := 0,
    lastActivityAt := 0, wrongGuesses := 0 }

def sessionForced : Session :=
  { id := 1, owner := 7, phase := Phase.guessVerify,
    candidates := [candA, candB],
    history := [("q one", Answer.no), ("q two", Answer.no),
                ("q three", Answer.no)],
    questionCount := 3, maxQuestions := 3, pendingQuestion := none,
    pendingGuess := some 0, summary := none, createdAt := 0,
    lastActivityAt := 10, wrongGuesses := 0 }

/-- Concrete instantiation of C3, Scenario A: with maxQuestions = 3 and the
third question answered, the machine forces GuessVerify instead of a fourth
question. -/
theorem claim3_forced_guess_witness :
    sessionForced.questionCount = sessionAtBudget.questionCount ∧
    sessionForced.phase = Phase.guessVerify ∧
    sessionForced.pendingQuestion = none := by
  have h := claim3_forced_guess defaultConfig (some (OracleReply.guess 0))
    sessionAtBudget Answer.no 10 "q three" sessionForced none rfl rfl rfl rfl
  exact ⟨h.1, h.2 rfl⟩

theorem submitGuessVerificationBody_false (s1 : Session)
    (hp : s1.phase = Phase.guessVerify) :
    submitGuessVerificationBody false s1 = step s1 Event.guessWrong := by
  unfold submitGuessVerificationBody
  rw [if_pos hp]
  rfl

theorem step_guessWrong_retry (s : Session) (hp : s.phase = Phase.guessVerify)
    (hlt : s.questionCount < s.maxQuestions) :
    step s Event.guessWrong = Except.ok
      { s with phase := Phase.playing, pendingGuess := none,
               wrongGuesses := s.wrongGuesses + 1 } := by
  obtain ⟨i, o, ph, cs, hist, qc, mq, pq, pg, sm, ca, la, wg⟩ := s
  simp only at hp hlt
  subst hp
  simp only [step]
  rw [if_pos hlt]

theorem step_guessWrong_exhausted (s : Session)
    (hp : s.phase = Phase.guessVerify)
    (hge : ¬ s.questionCount < s.maxQuestions) :
    step s Event.guessWrong = Except.ok
      { s with phase := Phase.completed, pendingGuess := none,
               wrongGuesses := s.wrongGuesses + 1 } := by
  obtain ⟨i, o, ph, cs, hist, qc, mq, pq, pg, sm, ca, la, wg⟩ := s
  simp only at hp hge
  subst hp
  simp only [step]
  rw [if_neg hge]

/-- Claim C4: in GuessVerify, submitGuessVerification with correct = false
succeeds and moves to Playing while questionCount < maxQuestions, and to
Completed with a null summary once the budget is exhausted; budget
exhaustion never yields Expired. -/
theorem claim4_wrong_guess (cfg : Config) (s : Session) (now : Nat)
    (s' : Session) (e : Option GameError)
    (hp : s.phase = Phase.guessVerify) (hs : s.summary = none)
    (hx : isExpired cfg s now = false)
    (h : submitGuessVerification cfg s false now = (s', e)) :
    e = none ∧ s'.phase ≠ Phase.expired ∧
    (s.questionCount < s.maxQuestions → s'.phase = Phase.playing) ∧
    (¬ s.questionCount < s.maxQuestions →
      s'.phase = Phase.completed ∧ s'.summary = none) := by
  rcases runOp_eq_cases cfg s now _ s' e h with
    ⟨hx2, _, _⟩ | ⟨_, hb, h2⟩ | ⟨_, h1, err, hb, h2⟩
  · rw [hx] at hx2
    exact Bool.noConfusion hx2
  · rw [submitGuessVerificationBody_false { s with lastActivityAt := now }
      hp] at hb
    by_cases hlt : s.questionCount < s.maxQuestions
    · rw [step_guessWrong_retry { s with lastActivityAt := now } hp hlt] at hb
      injection hb with hb
      subst hb
      exact ⟨h2, fun hc => Phase.noConfusion hc, fun _ => rfl,
        fun hc => absurd hlt hc⟩
    · rw [step_guessWrong_exhausted { s with lastActivityAt := now } hp hlt]
        at hb
      injection hb with hb
      subst hb
      exact ⟨h2, fun hc => Phase.noConfusion hc, fun hc => absurd hc hlt,
        fun _ => ⟨rfl, hs⟩⟩
  · rw [submitGuessVerificationBody_false { s with lastActivityAt := now }
      hp] at hb
    by_cases hlt : s.questionCount < s.maxQuestions
    · rw [step_guessWrong_retry { s with lastActivityAt := now } hp hlt] at hb
      exact Except.noConfusion hb
    · rw [step_guessWrong_exhausted { s with lastActivityAt := now } hp hlt]
        at hb
      exact Except.noConfusion hb

def sessionGuessRetry : Session :=
  { id := 2, owner := 8, phase := Phase.guessVerify,
    candidates := [candA, candB], history := [("q one", Answer.no)],
    questionCount := 1, maxQuestions := 3, pendingQuestion := none,
    pendingGuess := some 1, summary := none, createdAt := 0,
    lastActivityAt := 0, wrongGuesses := 0 }

def sessionRetryResult : Session :=
  { id := 2, owner := 8, phase := Phase.playing,
    candidates := [candA, candB], history := [("q one", Answer.no)],
    questionCount := 1, maxQuestions := 3, pendingQuestion := none,
    pendingGuess := none, summary := none, createdAt := 0,
    lastActivityAt := 5, wrongGuesses := 1 }

def sessionGuessEnd : Session :=
  { id := 2, owner := 8, phase := Phase.guessVerify,
    candidates := [candA, candB], history := [("q one", Answer.no)],
    questionCount := 3, maxQuestions := 3, pendingQuestion := none,
    pendingGuess := some 1, summary := none, createdAt := 0,
    lastActivityAt := 0, wrongGuesses := 1 }

def sessionEndResult : Session :=
  { id := 2, owner := 8, phase := Phase.completed,
    candidates := [candA, candB], history := [("q one", Answer.no)],
    questionCount := 3, maxQuestions := 3, pendingQuestion := none,
    pendingGuess := none, summary := none, createdAt := 0,
    lastActivityAt := 5, wrongGuesses := 2 }

/-- Concrete instantiation of C4, Scenario C: a wrong guess with budget
left returns to Playing; a wrong guess with the budget exhausted completes
unsolved, not Expired. -/
theorem claim4_wrong_guess_witness :
    sessionRetryResult.phase = Phase.playing ∧
    sessionEndResult.phase = Phase.completed ∧
    sessionEndResult.summary = none ∧
    sessionEndResult.phase ≠ Phase.expired := by
  have h1 := claim4_wrong_guess defaultConfig sessionGuessRetry 5
    sessionRetryResult none rfl rfl rfl rfl
  have h2 := claim4_wrong_guess defaultConfig sessionGuessEnd 5
    sessionEndResult none rfl rfl rfl rfl
  refine ⟨h1.2.2.1 (by decide), ?_, ?_, h2.2.1⟩
  · exact (h2.2.2.2 (by decide)).1
  · exact (h2.2.2.2 (by decide)).2

theorem isExpired_not_terminal (cfg : Config) (s : Session) (now : Nat)
    (hx : isExpired cfg s now = true) : s.phase.isTerminal = false := by
  unfold isExpired at hx
  cases hp : s.phase <;>
    first
      | rfl
      | (rw [hp] at hx; exact Bool.noConfusion hx)

theorem runOp_expired (cfg : Config) (s : Session) (now : Nat)
    (body : Session → Except GameError Session)
    (hx : isExpired cfg s now = true) :
    runOp cfg s now body =
      ({ s with phase := Phase.expired }, some GameError.sessionExpired) := by
  unfold runOp
  rw [if_pos hx]

theorem touch_expired (cfg : Config) (s : Session) (now : Nat)
    (hx : isExpired cfg s now = true) :
    touch cfg s now =
      ({ s with phase := Phase.expired }, some GameError.sessionExpired) := by
  unfold touch
  rw [isExpired_not_terminal cfg s now hx, if_neg Bool.false_ne_true]
  exact runOp_expired cfg s now _ hx

theorem cancel_expired (cfg : Config) (s : Session) (now : Nat)
    (hx : isExpired cfg s now = true) :
    cancel cfg s now =
      ({ s with phase := Phase.expired }, some GameError.sessionExpired) := by
  unfold cancel
  rw [isExpired_not_terminal cfg s now hx, if_neg Bool.false_ne_true]
  exact runOp_expired cfg s now _ hx

/-- Claim C5: a session counts as expired exactly when now − lastActivityAt
exceeds the per-phase inactivity limit (defaults Naming 60s, Playing 120s,
GuessVerify 120s), and every Orchestrator operation checks this first: on an
already-expired session it forces Expired and fails with SessionExpired
instead of performing the operation. -/
theorem claim5_expiry (cfg : Config) (s : Session) (now : Nat) :
    (isExpired cfg s now = true ↔
      ∃ l, phaseLimit cfg s.phase = some l ∧ l < now - s.lastActivityAt) ∧
    (phaseLimit defaultConfig Phase.naming = some 60 ∧
      phaseLimit defaultConfig Phase.playing = some 120 ∧
      phaseLimit defaultConfig Phase.guessVerify = some 120) ∧
    (isExpired cfg s now = true →
      (∀ oracle cid n, assignName cfg oracle s cid n now =
        ({ s with phase := Phase.expired }, some GameError.sessionExpired)) ∧
      (∀ oracle ans, submitAnswer cfg oracle s ans now =
        ({ s with phase := Phase.expired }, some GameError.sessionExpired)) ∧
      (∀ c, submitGuessVerification cfg s c now =
        ({ s with phase := Phase.expired }, some GameError.sessionExpired)) ∧
      touch cfg s now =
        ({ s with phase := Phase.expired }, some GameError.sessionExpired) ∧
      cancel cfg s now =
        ({ s with phase := Phase.expired }, some GameError.sessionExpired)) := by
  refine ⟨?_, ⟨rfl, rfl, rfl⟩, ?_⟩
  · cases hl : phaseLimit cfg s.phase <;> simp [isExpired, hl]
  · intro hx
    exact ⟨fun oracle cid n => runOp_expired cfg s now _ hx,
      fun oracle ans => runOp_expired cfg s now _ hx,
      fun c => runOp_expired cfg s now _ hx,
      touch_expired cfg s now hx,
      cancel_expired cfg s now hx⟩

def sessionNamingLate : Session :=
  { id := 3, owner := 9, phase := Phase.naming, candidates := [candA, candB],
    history := [], questionCount := 0, maxQuestions := 20,
    pendingQuestion := none, pendingGuess := none, summary := none,
    createdAt := 0, lastActivityAt := 0, wrongGuesses := 0 }

/-- Concrete instantiation of C5, Scenario B: a Naming session idle for 61s
with a 60s limit is expired, and touch on it forces Expired and fails with
SessionExpired. -/
theorem claim5_expiry_witness :
    isExpired defaultConfig sessionNamingLate 61 = true ∧
    phaseLimit defaultConfig Phase.naming = some 60 ∧
    touch defaultConfig sessionNamingLate 61 =
      ({ sessionNamingLate with phase := Phase.expired },
        some GameError.sessionExpired) := by
  have h := claim5_expiry defaultConfig sessionNamingLate 61
  refine ⟨?_, h.2.1.1, ?_⟩
  · exact h.1.mpr ⟨60, rfl, by decide⟩
  · exact (h.2.2 (h.1.mpr ⟨60, rfl, by decide⟩)).2.2.2.1

/-- Claim C6: when an Orchestrator operation's Oracle call fails
(unavailable) or its reply is malformed, the operation fails with
OracleUnavailable or OracleProtocolError and the session — phase, history,
questionCount and lastActivityAt included — is returned completely
unchanged, so the user can retry within the timeout window. -/
theorem claim6_oracle_failure (cfg : Config) (s : Session) (now : Nat) :
    (∀ oracle cid n s' e, assignName cfg oracle s cid n now = (s', some e) →
      e = GameError.oracleUnavailable ∨ e = GameError.oracleProtocolError →
      s' = s) ∧
    (∀ oracle ans s' e, submitAnswer cfg oracle s ans now = (s', some e) →
      e = GameError.oracleUnavailable ∨ e = GameError.oracleProtocolError →
      s' = s) ∧
    (s.phase = Phase.playing → ∀ q, s.pendingQuestion = some q →
      isExpired cfg s now = false → ∀ ans,
      submitAnswer cfg none s ans now =
        (s, some GameError.oracleUnavailable)) ∧
    (s.phase = Phase.playing → ∀ q, s.pendingQuestion = some q →
      isExpired cfg s now = false → ∀ ans,
      submitAnswer cfg (some OracleReply.malformed) s ans now =
        (s, some GameError.oracleProtocolError)) := by
  refine ⟨?_, ?_, ?_, ?_⟩
  · intro oracle cid n s' e h he
    refine runOp_error_eq cfg s now _ s' e h ?_
    rcases he with he | he <;> subst he <;>
      exact fun hc => GameError.noConfusion hc
  · intro oracle ans s' e h he
    refine runOp_error_eq cfg s now _ s' e h ?_
    rcases he with he | he <;> subst he <;>
      exact fun hc => GameError.noConfusion hc
  · intro hp q hq hx ans
    unfold submitAnswer runOp
    rw [hx, if_neg Bool.false_ne_true]
    by_cases hc : s.questionCount = s.maxQuestions
    · rw [submitAnswerBody_forced none ans { s with lastActivityAt := now }
        q hp hq hc]
      rfl
    · rw [submitAnswerBody_next none ans { s with lastActivityAt := now }
        q hp hq hc]
      rfl
  · intro hp q hq hx ans
    unfold submitAnswer runOp
    rw [hx, if_neg Bool.false_ne_true]
    by_cases hc : s.questionCount = s.maxQuestions
    · rw [submitAnswerBody_forced (some OracleReply.malformed) ans
        { s with lastActivityAt := now } q hp hq hc]
      rfl
    · rw [submitAnswerBody_next (some OracleReply.malformed) ans
        { s with lastActivityAt := now } q hp hq hc]
      rfl

def sessionPlayingMid : Session :=
  { id := 4, owner := 11, phase := Phase.playing,
    candidates := [candA, candB], history := [],
    questionCount := 1, maxQuestions := 3,
    pendingQuestion := some "q one", pendingGuess := none, summary := none,
    createdAt := 0, lastActivityAt := 0, wrongGuesses := 0 }

/-- Concrete instantiation of C6: an unavailable oracle and a malformed
reply both fail the operation and hand back the identical session. -/
theorem claim6_oracle_failure_witness :
    submitAnswer defaultConfig none sessionPlayingMid Answer.yes 5 =
      (sessionPlayingMid, some GameError.oracleUnavailable) ∧
    submitAnswer defaultConfig (some OracleReply.malformed) sessionPlayingMid
      Answer.yes 5 = (sessionPlayingMid, some GameError.oracleProtocolError) ∧
    sessionPlayingMid = sessionPlayingMid := by
  have h := claim6_oracle_failure defaultConfig sessionPlayingMid 5
  have h3 := h.2.2.1 rfl "q one" rfl rfl Answer.yes
  have h4 := h.2.2.2 rfl "q one" rfl rfl Answer.yes
  have h2 := h.2.1 none Answer.yes sessionPlayingMid
    GameError.oracleUnavailable h3 (Or.inl rfl)
  exact ⟨h3, h4, h2⟩

/-- Claim C7: startSession fails with NoCandidatesDetected and creates no
session whenever the Vision Analyzer returns fewer than two candidates;
otherwise it creates exactly one session whose initial phase is Naming. -/
theorem claim7_startSession (cfg : Config) (owner sid now : Nat)
    (cs : List Candidate) :
    (cs.length < 2 → startSession cfg owner sid (some cs) now =
      Except.error GameError.noCandidatesDetected) ∧
    (2 ≤ cs.length → ∃ s, startSession cfg owner sid (some cs) now =
      Except.ok s ∧ s.phase = Phase.naming ∧ s.owner = owner ∧
      s.candidates = cs ∧ s.questionCount = 0 ∧
      s.maxQuestions = cfg.maxQuestions) := by
  constructor
  · intro hlt
    simp only [startSession]
    rw [if_pos hlt]
  · intro hge
    refine ⟨{ mkSession sid owner cfg now with
        phase := Phase.naming, candidates := cs },
      ?_, rfl, rfl, rfl, rfl, rfl⟩
    simp only [startSession]
    rw [if_neg (by omega)]
    rfl

/-- Concrete instantiation of C7: one candidate is rejected, two produce a
Naming session. -/
theorem claim7_startSession_witness :
    startSession defaultConfig 7 1 (some [candA]) 0 =
      Except.error GameError.noCandidatesDetected ∧
    ∃ s, startSession defaultConfig 7 1 (some [candA, candB]) 0 =
      Except.ok s ∧ s.phase = Phase.naming := by
  have h1 := (claim7_startSession defaultConfig 7 1 0 [candA]).1 (by decide)
  obtain ⟨s, hs, hph, _⟩ :=
    (claim7_startSession defaultConfig 7 1 0 [candA, candB]).2 (by decide)
  exact ⟨h1, s, hs, hph⟩

/-- Claim C8: touch and cancel on a session already in a terminal phase are
idempotent no-ops that return the existing terminal state and never an
error. -/
theorem claim8_terminal_idempotent (cfg : Config) (s : Session) (now : Nat)
    (ht : s.phase.isTerminal = true) :
    touch cfg s now = (s, none) ∧ cancel cfg s now = (s, none) := by
  unfold touch cancel
  rw [ht]
  exact ⟨rfl, rfl⟩

def sessionDone : Session :=
  { id := 5, owner := 12, phase := Phase.cancelled,
    candidates := [candA, candB], history := [],
    questionCount := 0, maxQuestions := 20, pendingQuestion := none,
    pendingGuess := none, summary := none, createdAt := 0,
    lastActivityAt := 0, wrongGuesses := 0 }

/-- Concrete instantiation of C8: touch and a second cancel on a cancelled
session return it unchanged with no error. -/
theorem claim8_terminal_idempotent_witness :
    touch defaultConfig sessionDone 999 = (sessionDone, none) ∧
    cancel defaultConfig sessionDone 999 = (sessionDone, none) :=
  claim8_terminal_idempotent defaultConfig sessionDone 999 rfl

/-- Claim C10: the image-analysis step detects at most 20 faces, so a
session's candidate sequence never holds more than 20 candidates. -/
theorem claim10_max_faces (faces : List Candidate) (cfg : Config)
    (owner sid now : Nat) :
    (analyzeImage faces).length ≤ 20 ∧
    (∀ s, startSession cfg owner sid (some (analyzeImage faces)) now =
      Except.ok s → s.candidates.length ≤ 20) := by
  constructor
  · exact List.length_take_le 20 faces
  · intro s hs
    simp only [startSession] at hs
    split at hs
    · exact Except.noConfusion hs
    · injection hs with hs
      subst hs
      exact List.length_take_le 20 faces

/-- Concrete instantiation of C10 on a 21-face analyzer input. -/
theorem claim10_max_faces_witness :
    (analyzeImage (List.replicate 21 candA)).length ≤ 20 ∧
    ∀ s, startSession defaultConfig 7 1
        (some (analyzeImage (List.replicate 21 candA))) 0 =
      Except.ok s → s.candidates.length ≤ 20 :=
  claim10_max_faces (List.replicate 21 candA) defaultConfig 7 1 0

end PersonGuesser
